import Mathlib

/-!
# Verification of the hay-day-bot vision/workflow core

A shallow embedding, in Lean 4, of the decision-relevant parts of the
`hay-day-bot` repository:

* `core/template_manager.py` — `TemplateManager.find_template` (template
  matching with a grayscale fallback); matching scores produced by OpenCV are
  modelled as rational-valued environment inputs.
* `bot/market.py` — `MarketOperations.analyze_current_location` (priority
  location classifier) and `MarketOperations.check_silo_full_template`.
* `gui/bot_controller.py` — the persistent-flag updates of
  `BotController.bot_loop` (silo-full / wheat-sold bookkeeping),
  `_comprehensive_field_planting`, and `stop_bot`.
* `core/path_generator.py` — `PathGenerator.create_linear_path`; the
  `cv2.pointPolygonTest(contour, p, False) >= 0` containment test is
  modelled as a boolean-valued oracle parameter.
* `bot/operations.py` — `BotOperations.plant_wheat` / `harvest_wheat`
  (pointer-drag workflows with cleanup), `interruptible_sleep`.
* `gui/detection_manager.py` — `DetectionManager._interruptible_sleep`.
* `core/soil_detector.py` — the contour area gate of
  `SoilDetector.detect_field` and `get_centroid`.

Python `float` confidences are modelled as `ℚ` (only order comparisons and
`min`/`max` occur, so this is exact); wall-clock durations are modelled in
integer milliseconds; concurrency (readings of `stop_event` / `running` that
another thread may flip) is modelled by boolean oracles supplied as
environment inputs.
-/

/-! ## State model (`core/state.py`) -/

/-- `BotState` from `core/state.py`: process-lifetime boolean flags. -/
structure BotState where
  running : Bool
  detection_active : Bool
  path_execution_active : Bool
  silo_is_full : Bool
  wheat_sold_this_session : Bool
deriving DecidableEq, Repr

/-! ## Template matching (`core/template_manager.py`) -/

/-- Python truthiness of an `Optional[int]`-valued coordinate:
`None` is falsy, and the integer `0` is falsy as well.  This is the test
performed by every `if x and y:` guard on `find_template` results. -/
def truthy : Option Nat → Bool
  | none => false
  | some n => n != 0

/-- Result triple of `TemplateManager.find_template`:
`(center_x, center_y, confidence)` with the coordinates `None` when no
attempt cleared the threshold. -/
structure MatchRes where
  x? : Option Nat
  y? : Option Nat
  conf : ℚ
deriving DecidableEq, Repr

/-- Environment of one `find_template` call: whether the template name is
loaded (`template_name not in self.templates` otherwise), the best
score/location reported by `cv2.minMaxLoc` for the color attempt and for the
grayscale attempt, and the template dimensions. -/
structure TemplEnv where
  known : Bool
  colorScore : ℚ
  colorLoc : Nat × Nat
  grayScore : ℚ
  grayLoc : Nat × Nat
  w : Nat
  h : Nat
deriving DecidableEq, Repr

/-- The inner `_match_template` helper of `find_template`: if the best score
clears the threshold, report the center of the matched rectangle
(`max_loc + (w // 2, h // 2)`), else a null location carrying the score. -/
def matchAttempt (threshold score : ℚ) (loc : Nat × Nat) (w h : Nat) : MatchRes :=
  if threshold ≤ score then
    ⟨some (loc.1 + w / 2), some (loc.2 + h / 2), score⟩
  else
    ⟨none, none, score⟩

/-- `TemplateManager.find_template`: unknown templates yield `(None, None, 0)`;
otherwise try the color match first and fall back to the grayscale match
whenever the color attempt did not clear the threshold.  Note that the
fallback's result is returned as-is, so a doubly-failed call carries the
grayscale score. -/
def find_template (t : TemplEnv) (threshold : ℚ) : MatchRes :=
  if t.known = false then ⟨none, none, 0⟩
  else
    let r := matchAttempt threshold t.colorScore t.colorLoc t.w t.h
    if r.x?.isSome then r
    else matchAttempt threshold t.grayScore t.grayLoc t.w t.h

/-! ## Configuration constants (`config.py`), as exact rationals. -/

def MAIN_PAGE_THRESHOLD : ℚ := 7/10
def MARKET_PAGE_THRESHOLD : ℚ := 7/10
def OFFER_PAGE_THRESHOLD : ℚ := 1/2
def SILO_POPUP_THRESHOLD : ℚ := 7/10
def CLOSE_BUTTON_THRESHOLD : ℚ := 2/5
def PAPER_PAGE_THRESHOLD : ℚ := 7/10
def OFFER_PAGE_PRIORITY_THRESHOLD : ℚ := 4/5
def MARKET_PAGE_PRIORITY_THRESHOLD : ℚ := 7/10

/-! ## Location classification (`MarketOperations.analyze_current_location`) -/

/-- The closed set of screen states the classifier can report. -/
inductive Loc where
  | silo_popup
  | paper_page
  | offer
  | market
  | main
  | dialog_open
deriving DecidableEq, Repr

/-- One captured frame, as seen through the six template matchers queried by
`analyze_current_location`. -/
structure ScreenEnv where
  mainT : TemplEnv
  offerT : TemplEnv
  marketT : TemplEnv
  paperT : TemplEnv
  siloT : TemplEnv
  closeT : TemplEnv
deriving DecidableEq, Repr

/-- `MarketOperations.analyze_current_location`.  Every `return locations`
in the source returns a dict with at most one key; we model the dict as a
list of (state, confidence) pairs.  The branch structure and thresholds are
mirrored exactly, including the Python truthiness tests `if silo_x and
silo_y` / `if close_x and close_y`. -/
def analyze_current_location (sc : ScreenEnv) : List (Loc × ℚ) :=
  let mainR := find_template sc.mainT MAIN_PAGE_THRESHOLD
  let offerR := find_template sc.offerT OFFER_PAGE_THRESHOLD
  let marketR := find_template sc.marketT MARKET_PAGE_THRESHOLD
  let paperR := find_template sc.paperT PAPER_PAGE_THRESHOLD
  let siloR := find_template sc.siloT SILO_POPUP_THRESHOLD
  let closeR := find_template sc.closeT CLOSE_BUTTON_THRESHOLD
  if truthy siloR.x? && truthy siloR.y? && decide (SILO_POPUP_THRESHOLD ≤ siloR.conf) then
    [(Loc.silo_popup, siloR.conf)]
  else if PAPER_PAGE_THRESHOLD ≤ paperR.conf then
    [(Loc.paper_page, paperR.conf)]
  else if OFFER_PAGE_PRIORITY_THRESHOLD ≤ offerR.conf then
    [(Loc.offer, offerR.conf)]
  else if MARKET_PAGE_PRIORITY_THRESHOLD ≤ marketR.conf ∧
      offerR.conf < OFFER_PAGE_PRIORITY_THRESHOLD then
    [(Loc.market, marketR.conf)]
  else if MAIN_PAGE_THRESHOLD ≤ mainR.conf ∧
      offerR.conf < OFFER_PAGE_PRIORITY_THRESHOLD ∧
      marketR.conf < MARKET_PAGE_PRIORITY_THRESHOLD ∧
      paperR.conf < PAPER_PAGE_THRESHOLD then
    [(Loc.main, mainR.conf)]
  else if truthy closeR.x? && truthy closeR.y? && decide (CLOSE_BUTTON_THRESHOLD ≤ closeR.conf) then
    [(Loc.dialog_open, closeR.conf)]
  else
    []

/-! ## Silo popup detection (`MarketOperations.check_silo_full_template`) -/

/-- The `BotState` mutation performed when `check_silo_full_template` takes
its detection branch: `silo_is_full := True; wheat_sold_this_session := False`
(and the identity when it does not). -/
def siloDetectUpdate (detected : Bool) (s : BotState) : BotState :=
  if detected then { s with silo_is_full := true, wheat_sold_this_session := false } else s

/-- `MarketOperations.check_silo_full_template`: looks up the `silo` template
at `SILO_POPUP_THRESHOLD`, and on a truthy `(x, y)` pair records the
detection in `BotState` and returns `True`; otherwise returns `False`
without touching the state. -/
def check_silo_full_template (siloT : TemplEnv) (s : BotState) : Bool × BotState :=
  let r := find_template siloT SILO_POPUP_THRESHOLD
  let detected := truthy r.x? && truthy r.y?
  (detected, siloDetectUpdate detected s)

/-! ## Workflow engine cycle (`BotController.bot_loop`)

One iteration of the template-based main loop, restricted to the mutation
points of the persistent flags `silo_is_full` / `wheat_sold_this_session`
(steps of the cycle that can never write either flag — popup closing, page
recovery, planting, harvesting, raw sleeps, `break`s — are identity steps on
these flags in the source and are omitted from the trace accordingly).
Outcomes of template detections and of the market sub-workflow are
environment inputs. -/

/-- Environment of one `bot_loop` cycle, restricted to the events that can
touch the persistent silo flags. -/
structure CycleEnv where
  /-- return value of `check_silo_full_template` at STEP 1. -/
  siloDetected : Bool
  /-- whether `create_wheat_advertisement_template` reached its insert-button
  click (`wheat_sold_this_session = True`, `bot/market.py` line 212) at least
  once inside the silo-forced `_handle_market_workflow` call. -/
  postedDuringMarket : Bool
  /-- return value of the silo-forced `_handle_market_workflow` call. -/
  marketReturnedTrue : Bool
  /-- whether a later market workflow this cycle (the STEP 5 `collect`
  branch) reached an insert-button click. -/
  collectPosted : Bool
deriving DecidableEq, Repr

/-- The successive `BotState`s written by one cycle of `bot_loop`, strictly
after the entry state, paired with the state at the end of the cycle.
Mirrors `gui/bot_controller.py` lines 121-244:
STEP 1 runs `check_silo_full_template`, then the snapshot
`(persistent_silo_full, wheat_sold)` is taken, and the three flag-relevant
branches follow. -/
def cycleSteps (e : CycleEnv) (s0 : BotState) : List BotState × BotState :=
  let s1 := siloDetectUpdate e.siloDetected s0
  let persistent := s1.silo_is_full
  let sold := s1.wheat_sold_this_session
  if persistent && !sold then
    -- forced market workflow; wheat may get posted, and the silo state is
    -- cleared only when `wheat_sold_this_session` is found true afterwards
    -- (lines 155-161); the branch ends with `continue`, skipping STEPs 2-5.
    let s2 := if e.postedDuringMarket then { s1 with wheat_sold_this_session := true } else s1
    let s3 := if e.marketReturnedTrue && s2.wheat_sold_this_session then
      { s2 with silo_is_full := false, wheat_sold_this_session := false } else s2
    ([s1, s2, s3], s3)
  else if persistent && sold then
    -- lines 172-176: wheat was already posted, clear both flags, then the
    -- cycle continues into STEPs 2-5 (which may post wheat again).
    let s2 := { s1 with silo_is_full := false, wheat_sold_this_session := false }
    let s3 := if e.collectPosted then { s2 with wheat_sold_this_session := true } else s2
    ([s1, s2, s3], s3)
  else
    -- neither flag branch: STEPs 2-5, of which only a STEP 5 market
    -- workflow can write one of the two flags (posting wheat).
    let s2 := if e.collectPosted then { s1 with wheat_sold_this_session := true } else s1
    ([s1, s2], s2)

/-- `BotController.stop_bot` (lines 76-78): signals stop, clears `running`
and `path_execution_active`; the silo flags are untouched. -/
def stop_bot_update (s : BotState) : BotState :=
  { s with running := false, path_execution_active := false }

/-- The state trace of a run of the engine: the given cycles in order,
followed by the `stop_bot` transition.  `s0` itself is not included; pair it
with `bot_run_trace` via `siloClearChainOk s0 (...)`. -/
def bot_run_trace : List CycleEnv → BotState → List BotState
  | [], s => [stop_bot_update s]
  | e :: es, s => (cycleSteps e s).1 ++ bot_run_trace es (cycleSteps e s).2

/-- Scan a trace checking every adjacent transition `prev → b`: whenever
`silo_is_full` falls from `true` to `false`, `wheat_sold_this_session` must
hold in the pre-state. -/
def siloClearChainOk (prev : BotState) : List BotState → Bool
  | [] => true
  | b :: rest =>
    (!(prev.silo_is_full && !b.silo_is_full) || prev.wheat_sold_this_session)
      && siloClearChainOk b rest

/-! ## Comprehensive planting (`BotController._comprehensive_field_planting`) -/

/-- Environment of one attempt of the comprehensive-planting loop.  The
coverage-improvement computation in the source (lines 394-400) only selects
a log message and never affects control flow, so it is not modelled. -/
structure PlantAttemptEnv where
  /-- `'main' in locations` at the start of the attempt. -/
  onMain : Bool
  /-- return value of `_smart_return_to_main` when invoked. -/
  returnOk : Bool
  /-- `check_fields_need_planting_cv` at the start of the attempt. -/
  needPlanting : Bool
  /-- the Python guard `cx and cy and contour is not None`. -/
  fieldDetected : Bool
  /-- return value of `plant_wheat`. -/
  plantOk : Bool
  /-- `check_fields_need_planting_cv` re-checked after a successful plant. -/
  needAfter : Bool
deriving DecidableEq, Repr

/-- Environment of a whole `_comprehensive_field_planting` call. -/
structure CompEnv where
  attempts : Nat → PlantAttemptEnv
  /-- `check_fields_need_planting_cv` at the final post-loop check. -/
  finalNeedPlanting : Bool

/-- The body of one attempt: `some b` means `return b` from the function,
`none` means fall through to the next attempt (this covers both the
`continue` after a failed return-to-main and the plain end of the body). -/
def compAttemptStep (a : PlantAttemptEnv) : Option Bool :=
  if !a.onMain && !a.returnOk then none
  else if !a.needPlanting then some true
  else if a.fieldDetected && a.plantOk && !a.needAfter then some true
  else none

/-- The `for attempt in range(max_attempts)` loop: returns the early-return
value (if any) and the number of attempts performed. -/
def compLoop (att : Nat → PlantAttemptEnv) : Nat → Nat → Option Bool × Nat
  | _, 0 => (none, 0)
  | i, n + 1 =>
    match compAttemptStep (att i) with
    | some b => (some b, 1)
    | none =>
      let r := compLoop att (i + 1) n
      (r.1, r.2 + 1)

/-- `BotController._comprehensive_field_planting` with its default
`max_attempts = 5`: run the bounded loop, and if it exhausts all attempts,
return the negation of a final needs-planting check.  The second component
counts the attempts performed. -/
def comprehensive_field_planting (env : CompEnv) : Bool × Nat :=
  let r := compLoop env.attempts 0 5
  match r.1 with
  | some b => (b, r.2)
  | none => (!env.finalNeedPlanting, r.2)

/-! ## Interruptible sleeps (`bot/operations.py`, `gui/detection_manager.py`)

Durations are in integer milliseconds.  `config.py`:
`STOP_CHECK_INTERVAL = 0.1`, `MAX_SLEEP_CHUNK = 1.0`. -/

def STOP_CHECK_INTERVAL_MS : Nat := 100
def MAX_SLEEP_CHUNK_MS : Nat := 1000

/-- `BotOperations.interruptible_sleep`'s chunk size:
`min(self.config.STOP_CHECK_INTERVAL, 1.0)`. -/
def opsChunkMs : Nat := min STOP_CHECK_INTERVAL_MS 1000

/-- `DetectionManager._interruptible_sleep`'s chunk size:
`min(self.config.STOP_CHECK_INTERVAL, self.config.MAX_SLEEP_CHUNK)`. -/
def detChunkMs : Nat := min STOP_CHECK_INTERVAL_MS MAX_SLEEP_CHUNK_MS

/-- The chunked sleep loop shared (textually) by
`BotOperations.interruptible_sleep` and
`DetectionManager._interruptible_sleep`:
`while elapsed < total_time and not self.stop_event.is_set():
sleep(min(chunk_size, total_time - elapsed))`.
`stop k` is the `stop_event.is_set()` reading at the `k`-th loop test.
Returns the list of individual `time.sleep` chunk durations.  The fuel
argument (instantiated with the total) strictly bounds the iteration count
since every chunk is at least 1 ms. -/
def sleepChunksAux (chunk : Nat) (stop : Nat → Bool) : Nat → Nat → Nat → List Nat
  | 0, _, _ => []
  | fuel + 1, k, rem =>
    if rem = 0 then []
    else if stop k then []
    else min chunk rem :: sleepChunksAux chunk stop fuel (k + 1) (rem - min chunk rem)

/-- `BotOperations.interruptible_sleep` (chunk sequence only). -/
def interruptible_sleep (stop : Nat → Bool) (totalMs : Nat) : List Nat :=
  sleepChunksAux opsChunkMs stop totalMs 0 totalMs

/-- `DetectionManager._interruptible_sleep` (chunk sequence only). -/
def det_interruptible_sleep (stop : Nat → Bool) (totalMs : Nat) : List Nat :=
  sleepChunksAux detChunkMs stop totalMs 0 totalMs

/-- The raw `time.sleep` chunks performed by
`MarketOperations._check_and_dismiss_loading_screen_with_click` (and its
verbatim copy in `BotController`): a single 1.5 s sleep after clicking the
escape point, or a single 2 s sleep when no escape point is found.  These
sleeps take no stop signal: the function has no access to `stop_event`. -/
def loading_screen_sleeps (loadingFound clickFound : Bool) : List Nat :=
  if loadingFound then (if clickFound then [1500] else [2000]) else []

/-! ## Field detection area gate (`SoilDetector.detect_field`)

Contours produced by `cv2.findContours` are modelled abstractly by their
`cv2.contourArea` value and their spatial moments (`m00`, `m10`, `m01`). -/

/-- Abstraction of an OpenCV contour: its area and spatial moments. -/
structure CContour where
  area : ℚ
  m00 : ℚ
  m10 : ℚ
  m01 : ℚ
deriving DecidableEq, Repr

/-- `SoilDetector.get_centroid`: `(int(m10/m00), int(m01/m00))` when
`m00 != 0`, else `(None, None)`.  Contour moments of image contours are
non-negative, where Python `int()` truncation agrees with `Rat.floor`. -/
def get_centroid (c : CContour) : Option (Int × Int) :=
  if c.m00 ≠ 0 then some ((c.m10 / c.m00).floor, (c.m01 / c.m00).floor) else none

/-- `max(contours, key=cv2.contourArea)`: the first contour attaining the
maximal area (Python's `max` keeps the earliest maximum). -/
def largestContour : List CContour → Option CContour
  | [] => none
  | c :: rest => some (rest.foldl (fun best d => if best.area < d.area then d else best) c)

/-- The tail of `SoilDetector.detect_field` (`core/soil_detector.py` lines
166-183): pick the largest contour of the combined mask and accept it only
when `min_area < area < max_area` with `min_area = 1000` and
`max_area = screen.shape[0] * screen.shape[1] * 0.5`; on success return
`(get_centroid(largest), largest)`, else `(None, None)`.  `sh`, `sw` are the
frame height and width. -/
def detect_field (cs : List CContour) (sh sw : Nat) : Option (Int × Int) × Option CContour :=
  match largestContour cs with
  | none => (none, none)
  | some lg =>
    let min_area : ℚ := 1000
    let max_area : ℚ := (sh * sw : ℚ) * (1/2)
    if min_area < lg.area ∧ lg.area < max_area then (get_centroid lg, some lg)
    else (none, none)

/-! ## Path generation (`PathGenerator.create_linear_path`)

Coordinates are integers.  `cv2.pointPolygonTest(contour, (x, y), False) >= 0`
is modelled by the boolean oracle `inside`; the contour argument itself is
its vertex list (used only for the bounding box `np.min`/`np.max`). -/

/-- The operation mode; the source passes the strings `"plant"` and
`"harvest"`, which select spacing constants only. -/
inductive PathType where
  | plant
  | harvest
deriving DecidableEq, Repr

/-- `range(start, stop, step)` for a positive `step`, via structural fuel
(the fuel `(stop - start).toNat` dominates the iteration count because each
iteration advances `start` by `step ≥ 1`). -/
def rangeStepAux (step : Int) : Nat → Int → Int → List Int
  | 0, _, _ => []
  | fuel + 1, start, stop =>
    if start < stop then start :: rangeStepAux step fuel (start + step) stop else []

/-- Python `range(start, stop, step)` (every call site of
`create_linear_path` uses a positive step). -/
def rangeStep (start stop step : Int) : List Int :=
  rangeStepAux step (stop - start).toNat start stop

/-- The horizontal scan-line sweep of `create_linear_path` (source lines
38-50): for each `y`, sample containment along `range(min_x, max_x + 1, 10)`
to find the line's extent, then emit the points of
`range(left_x, right_x + 1, line_step)` that pass the containment test. -/
def horizSweep (inside : Int → Int → Bool) (min_x max_x line_step : Int)
    (y_positions : List Int) : List (Int × Int) :=
  y_positions.flatMap (fun y =>
    let line_points := (rangeStep min_x (max_x + 1) 10).filter (fun x => inside x y)
    match line_points.min?, line_points.max? with
    | some left_x, some right_x =>
      ((rangeStep left_x (right_x + 1) line_step).filter (fun x => inside x y)).map
        (fun x => (x, y))
    | _, _ => [])

/-- The vertical scan-line sweep of `create_linear_path` (source lines
56-67), covering near-vertical features the horizontal sweep misses. -/
def vertSweep (inside : Int → Int → Bool) (min_y max_y step_size : Int)
    (x_positions : List Int) : List (Int × Int) :=
  x_positions.flatMap (fun x =>
    let line_points := (rangeStep min_y (max_y + 1) 10).filter (fun y => inside x y)
    match line_points.min?, line_points.max? with
    | some top_y, some bottom_y =>
      ((rangeStep top_y (bottom_y + 1) step_size).filter (fun y => inside x y)).map
        (fun y => (x, y))
    | _, _ => [])

/-- `PathGenerator.create_linear_path`: start at the center, sweep
horizontal scan lines over the contour's bounding box emitting points that
pass the containment test, then sweep vertical lines for missed areas, and
end at the center.  A `None` contour yields the single-point path. -/
def create_linear_path (inside : Int → Int → Bool) (cx cy : Int)
    (contour : Option (List (Int × Int))) (path_type : PathType) : List (Int × Int) :=
  match contour with
  | none => [(cx, cy)]
  | some pts =>
    let xs := pts.map Prod.fst
    let ys := pts.map Prod.snd
    let min_x := xs.min?.getD 0
    let max_x := xs.max?.getD 0
    let min_y := ys.min?.getD 0
    let max_y := ys.max?.getD 0
    let line_spacing : Int := if path_type = PathType.plant then 45 else 55
    let line_step : Int := if path_type = PathType.plant then 40 else 50
    let start_y := min_y + line_spacing / 2
    let end_y := max_y - line_spacing / 2
    let y_positions := rangeStep start_y (end_y + 1) line_spacing
    let horiz := horizSweep inside min_x max_x line_step y_positions
    let x_spacing := if path_type = PathType.plant then line_spacing * 2 else line_spacing * 3
    let x_positions := rangeStep (min_x + line_spacing / 2) max_x x_spacing
    let step_size : Int := if path_type = PathType.plant then 50 else 60
    let vert := vertSweep inside min_y max_y step_size x_positions
    ((cx, cy) :: (horiz ++ vert)) ++ [(cx, cy)]

/-! ## Pointer-drag workflows (`BotOperations.plant_wheat` / `harvest_wheat`)

Actuation is recorded as an explicit action trace.  Reads of
`self.bot_state.running` / `self.stop_event.is_set()` are concurrent with
`stop_bot`, so each guard's outcome is an environment input; places where
the Python code may raise (OpenCV/pyautogui calls inside the `try` block)
are likewise marked by environment inputs. -/

def WHEAT_X_OFFSET : Int := -100
def WHEAT_Y_OFFSET : Int := -150
def HARVEST_X_OFFSET : Int := -260
def HARVEST_Y_OFFSET : Int := -40
def INITIAL_PLANT_X_OFFSET : Int := 25
def INITIAL_PLANT_Y_OFFSET : Int := 80
def INITIAL_HARVEST_X_OFFSET : Int := 15
def INITIAL_HARVEST_Y_OFFSET : Int := 25

/-- One actuation or flag event performed by a drag workflow. -/
inductive Act where
  | mouseDown
  | mouseUp
  | click (x y : Int)
  | move (x y : Int)
  | setPath (b : Bool)
deriving DecidableEq, Repr

/-- `BotOperations.safe_click`: the guard `not running or stop_event` aborts
before clicking; otherwise the click happens and the call reports `False`
exactly when the post-click interruptible sleep was interrupted. -/
def safe_click (guardOk interrupted : Bool) (x y : Int) : Bool × List Act :=
  if !guardOk then (false, []) else (!interrupted, [Act.click x y])

/-- `BotOperations.safe_move`: the same guard, then an unconditional
success. -/
def safe_move (guardOk : Bool) (x y : Int) : Bool × List Act :=
  if !guardOk then (false, []) else (true, [Act.move x y])

/-- The per-point drag loop shared by `plant_wheat` and `harvest_wheat`:
at index `i` the loop breaks when `running`/`stop` fails (`loopGuard i`),
then moves via `safe_move` (guard `moveGuard i`; a `False` return also
breaks).  `excAt = some i` marks a pyautogui exception escaping at iteration
`i`.  stops Returns the move trace and whether an exception escaped. -/
def dragLoop (loopGuard moveGuard : Nat → Bool) (excAt : Option Nat) :
    Nat → List (Int × Int) → List Act × Bool
  | _, [] => ([], false)
  | i, p :: rest =>
    if excAt = some i then ([], true)
    else if !loopGuard i then ([], false)
    else
      let r := safe_move (moveGuard i) p.1 p.2
      if !r.1 then (r.2, false)
      else
        let rec' := dragLoop loopGuard moveGuard excAt (i + 1) rest
        (r.2 ++ rec'.1, rec'.2)

/-- The `except` handler shared by both drag workflows:
`pag.mouseUp(); path_execution_active = False; return False`. -/
def exceptExit (s : BotState) (tr : List Act) : Bool × BotState × List Act :=
  (false, { s with path_execution_active := false }, tr ++ [Act.mouseUp, Act.setPath false])

/-- The tail of the `try` block shared by both drag workflows: return to the
center (`safe_move`, result ignored), release the pointer, unlock the path,
return `True`; an exception anywhere in this section (`excFinal`) diverts to
the `except` handler. -/
def finishDrag (excFinal finalMoveGuard : Bool) (cx cy : Int) (s : BotState)
    (tr : List Act) : Bool × BotState × List Act :=
  if excFinal then exceptExit s tr
  else
    let rf := safe_move finalMoveGuard cx cy
    (true, { s with path_execution_active := false },
      (tr ++ rf.2) ++ [Act.mouseUp, Act.setPath false])

/-- Environment of one `plant_wheat` call. -/
structure PlantEnv where
  /-- the entry read of `self.bot_state.running`. -/
  runningAtEntry : Bool
  /-- guard / sleep-interrupt outcomes of `safe_click(cx, cy, "field center")`. -/
  clickCenterGuard : Bool
  clickCenterInterrupted : Bool
  /-- whether `interruptible_sleep(SCREEN_CENTER_DELAY)` reported stop. -/
  stopCenterDelay : Bool
  /-- whether the post-centering screen capture returned non-`None`. -/
  screenSome : Bool
  /-- `detection_state.center` read under the lock after centering. -/
  updatedCenter : Option (Int × Int)
  /-- guard / sleep-interrupt outcomes of the wheat-selection `safe_click`. -/
  clickWheatGuard : Bool
  clickWheatInterrupted : Bool
  /-- guard of the initial-plant `safe_move`. -/
  initialMoveGuard : Bool
  /-- an exception inside the `try` block before the path lock
  (screen capture / path creation section). -/
  excPre : Bool
  /-- whether the in-`try` screen capture returned non-`None`. -/
  tryScreenSome : Bool
  /-- `detection_state.contour` read under the lock inside the `try`. -/
  updatedContour : Option (List (Int × Int))
  /-- the `cv2.pointPolygonTest ... >= 0` oracle used for path creation. -/
  inside : Int → Int → Bool
  /-- exception escaping the drag loop at a given iteration. -/
  excAt : Option Nat
  /-- per-iteration `running`/`stop` guards of the drag loop. -/
  loopGuard : Nat → Bool
  /-- per-iteration guards of the in-loop `safe_move`. -/
  moveGuard : Nat → Bool
  /-- guard of the final return-to-center `safe_move`. -/
  finalMoveGuard : Bool
  /-- an exception in the return-to-center/release section. -/
  excFinal : Bool

/-- The `try` block of `plant_wheat` (`bot/operations.py` lines 125-180).
When a contour was passed, the capture may refresh it from
`detection_state` (`state.contour if state.contour is not None else contour`
— never `None` here since `contour` itself is not), the path is created,
the lock `path_execution_active := True` is taken, and the per-point loop
runs; any escaping exception lands in `exceptExit`. -/
def plantTry (env : PlantEnv) (cx cy : Int) (contour : Option (List (Int × Int)))
    (s : BotState) (tr : List Act) : Bool × BotState × List Act :=
  match contour with
  | none => finishDrag env.excFinal env.finalMoveGuard cx cy s tr
  | some c0 =>
    if env.excPre then exceptExit s tr
    else
      let c := if env.tryScreenSome then env.updatedContour.getD c0 else c0
      let path := create_linear_path env.inside cx cy (some c) PathType.plant
      let s1 := { s with path_execution_active := true }
      let tr1 := tr ++ [Act.setPath true]
      let dl := dragLoop env.loopGuard env.moveGuard env.excAt 0 path
      let tr2 := tr1 ++ dl.1
      if dl.2 then exceptExit s1 tr2
      else finishDrag env.excFinal env.finalMoveGuard cx cy s1 tr2

/-- `BotOperations.plant_wheat` (`bot/operations.py` lines 64-180): returns
`(return value, final BotState, actuation trace)`. -/
def plant_wheat (env : PlantEnv) (cx0 cy0 : Int) (contour : Option (List (Int × Int)))
    (s : BotState) : Bool × BotState × List Act :=
  if !env.runningAtEntry then (false, s, [])
  else
    let r1 := safe_click env.clickCenterGuard env.clickCenterInterrupted cx0 cy0
    if !r1.1 then (false, s, r1.2)
    else if env.stopCenterDelay then (false, s, r1.2)
    else
      let c1 := if env.screenSome then env.updatedCenter.getD (cx0, cy0) else (cx0, cy0)
      let cx := c1.1
      let cy := c1.2
      let r2 := safe_click env.clickWheatGuard env.clickWheatInterrupted
        (cx + WHEAT_X_OFFSET) (cy + WHEAT_Y_OFFSET)
      let tr2 := r1.2 ++ r2.2
      if !r2.1 then (false, s, tr2)
      else
        let tr3 := tr2 ++ [Act.mouseDown]
        let r3 := safe_move env.initialMoveGuard
          (cx + INITIAL_PLANT_X_OFFSET) (cy + INITIAL_PLANT_Y_OFFSET)
        let tr4 := tr3 ++ r3.2
        if !r3.1 then (false, s, tr4 ++ [Act.mouseUp])
        else plantTry env cx cy contour s tr4

/-- Environment of one `harvest_wheat` call. -/
structure HarvestEnv where
  runningAtEntry : Bool
  clickCenterGuard : Bool
  clickCenterInterrupted : Bool
  /-- guard of the `safe_move` to the harvest tool. -/
  toolMoveGuard : Bool
  /-- guard of the initial-harvest `safe_move`. -/
  initialMoveGuard : Bool
  excPre : Bool
  tryScreenSome : Bool
  updatedContour : Option (List (Int × Int))
  /-- `detection_state.center` read under the lock inside the `try`. -/
  updatedCenter : Option (Int × Int)
  inside : Int → Int → Bool
  excAt : Option Nat
  loopGuard : Nat → Bool
  moveGuard : Nat → Bool
  finalMoveGuard : Bool
  excFinal : Bool

/-- The `try` block of `harvest_wheat` (`bot/operations.py` lines 218-274):
like planting, but the refresh also updates the center
(`updated_cx, updated_cy = state.center if state.center else (cx, cy)`),
and the harvest spacing constants are used. -/
def harvestTry (env : HarvestEnv) (cx cy : Int) (contour : Option (List (Int × Int)))
    (s : BotState) (tr : List Act) : Bool × BotState × List Act :=
  match contour with
  | none => finishDrag env.excFinal env.finalMoveGuard cx cy s tr
  | some c0 =>
    if env.excPre then exceptExit s tr
    else
      let cc := if env.tryScreenSome then
          (env.updatedContour.getD c0, env.updatedCenter.getD (cx, cy))
        else (c0, (cx, cy))
      let c := cc.1
      let cx1 := cc.2.1
      let cy1 := cc.2.2
      let path := create_linear_path env.inside cx1 cy1 (some c) PathType.harvest
      let s1 := { s with path_execution_active := true }
      let tr1 := tr ++ [Act.setPath true]
      let dl := dragLoop env.loopGuard env.moveGuard env.excAt 0 path
      let tr2 := tr1 ++ dl.1
      if dl.2 then exceptExit s1 tr2
      else finishDrag env.excFinal env.finalMoveGuard cx1 cy1 s1 tr2

/-- `BotOperations.harvest_wheat` (`bot/operations.py` lines 182-274). -/
def harvest_wheat (env : HarvestEnv) (cx0 cy0 : Int) (contour : Option (List (Int × Int)))
    (s : BotState) : Bool × BotState × List Act :=
  if !env.runningAtEntry then (false, s, [])
  else
    let r1 := safe_click env.clickCenterGuard env.clickCenterInterrupted cx0 cy0
    if !r1.1 then (false, s, r1.2)
    else
      let r2 := safe_move env.toolMoveGuard (cx0 + HARVEST_X_OFFSET) (cy0 + HARVEST_Y_OFFSET)
      let tr2 := r1.2 ++ r2.2
      if !r2.1 then (false, s, tr2)
      else
        let tr3 := tr2 ++ [Act.mouseDown]
        let r3 := safe_move env.initialMoveGuard
          (cx0 + INITIAL_HARVEST_X_OFFSET) (cy0 + INITIAL_HARVEST_Y_OFFSET)
        let tr4 := tr3 ++ r3.2
        if !r3.1 then (false, s, tr4 ++ [Act.mouseUp])
        else harvestTry env cx0 cy0 contour s tr4

/-! ### Trace predicates for the cleanup discipline -/

/-- Does an action set `path_execution_active` to `true`? -/
def isSetTrue : Act → Bool
  | Act.setPath true => true
  | _ => false

/-- Does an action set `path_execution_active` to `false`? -/
def isSetFalse : Act → Bool
  | Act.setPath false => true
  | _ => false

/-- Is an action a pointer move? -/
def isMove : Act → Bool
  | Act.move _ _ => true
  | _ => false

/-- Whether a trace takes the path lock at some point. -/
def hasSetTrue (l : List Act) : Bool := l.any isSetTrue

/-- Whether a trace clears the path lock at some point. -/
def hasClear (l : List Act) : Bool := l.any isSetFalse

/-- Whether a trace contains a pointer-up followed (strictly later) by a
clear of the path lock. -/
def upThenClear : List Act → Bool
  | [] => false
  | Act.mouseUp :: rest => hasClear rest || upThenClear rest
  | _ :: rest => upThenClear rest

/-- The cleanup discipline: after every taking of the path lock, the trace
performs a pointer-up and, later still, clears the lock. -/
def cleanupOk : List Act → Bool
  | [] => true
  | Act.setPath true :: rest => upThenClear rest && cleanupOk rest
  | _ :: rest => cleanupOk rest

/-- The whole C2 obligation for one drag-workflow result
`(return value, final state, trace)` started from pre-state `s`: the trace
obeys the release-then-clear cleanup discipline, a trace that took the path
lock ends with the flag cleared, and a call entered with the flag clear
returns with it clear. -/
def cleanupInvariant (s : BotState) (res : Bool × BotState × List Act) : Bool :=
  cleanupOk res.2.2 &&
  (!hasSetTrue res.2.2 || !res.2.1.path_execution_active) &&
  (s.path_execution_active || !res.2.1.path_execution_active)

/-! # Theorems -/

/-! ## C3/C4 — path endpoints and containment -/

/-- C3: for every center `(cx, cy)`, every boundary contour (including
`none`), and every mode, `create_linear_path` returns a non-empty sequence
whose first and last elements both equal `(cx, cy)`; when the contour is
`none` the result is exactly `[(cx, cy)]`. -/
theorem create_linear_path_endpoints : ∀ (inside : Int → Int → Bool) (cx cy : Int)
    (contour : Option (List (Int × Int))) (pt : PathType),
    (create_linear_path inside cx cy contour pt).isEmpty = false ∧
    (create_linear_path inside cx cy contour pt).head? = some (cx, cy) ∧
    (create_linear_path inside cx cy contour pt).getLast? = some (cx, cy) ∧
    create_linear_path inside cx cy none pt = [(cx, cy)] := by
  intro inside cx cy contour pt
  have hlast : ∀ (a c : Int × Int) (l : List (Int × Int)),
      (a :: (l ++ [c])).getLast? = some c := fun a c l => List.getLast?_concat (a :: l)
  refine ⟨?_, ?_, ?_, rfl⟩ <;> cases contour
  · rfl
  · simp [create_linear_path]
  · rfl
  · simp [create_linear_path]
  · rfl
  · simp only [create_linear_path]
    exact hlast _ _ _

/-- C4: for every non-`none` boundary contour and every mode, every point of
the path other than the first and last lies inside or on the boundary, i.e.
passes the point-in-polygon containment test (the `inside` oracle, standing
for `cv2.pointPolygonTest(contour, p, False) >= 0`). -/
theorem create_linear_path_interior_within_boundary : ∀ (inside : Int → Int → Bool)
    (cx cy : Int) (pts : List (Int × Int)) (pt : PathType),
    (((create_linear_path inside cx cy (some pts) pt).drop 1).dropLast).all
      (fun q => inside q.1 q.2) = true := by
  intro inside cx cy pts pt
  have hhoriz : ∀ (a b c : Int) (l : List Int),
      ((horizSweep inside a b c l).all fun q => inside q.1 q.2) = true := by
    intro a b c l
    rw [List.all_eq_true]
    intro q hq
    rw [horizSweep, List.mem_flatMap] at hq
    obtain ⟨y, _, hqy⟩ := hq
    simp only at hqy
    cases hmin : ((rangeStep a (b + 1) 10).filter (fun x => inside x y)).min? with
    | none => rw [hmin] at hqy; simp at hqy
    | some lx =>
      cases hmax : ((rangeStep a (b + 1) 10).filter (fun x => inside x y)).max? with
      | none => rw [hmin, hmax] at hqy; simp at hqy
      | some rx =>
        rw [hmin, hmax] at hqy
        simp only [List.mem_map, List.mem_filter] at hqy
        obtain ⟨x, ⟨_, hx⟩, rfl⟩ := hqy
        simpa using hx
  have hvert : ∀ (a b c : Int) (l : List Int),
      ((vertSweep inside a b c l).all fun q => inside q.1 q.2) = true := by
    intro a b c l
    rw [List.all_eq_true]
    intro q hq
    rw [vertSweep, List.mem_flatMap] at hq
    obtain ⟨x, _, hqx⟩ := hq
    simp only at hqx
    cases hmin : ((rangeStep a (b + 1) 10).filter (fun y => inside x y)).min? with
    | none => rw [hmin] at hqx; simp at hqx
    | some ty =>
      cases hmax : ((rangeStep a (b + 1) 10).filter (fun y => inside x y)).max? with
      | none => rw [hmin, hmax] at hqx; simp at hqx
      | some by2 =>
        rw [hmin, hmax] at hqx
        simp only [List.mem_map, List.mem_filter] at hqx
        obtain ⟨y, ⟨_, hy⟩, rfl⟩ := hqx
        simpa using hy
  have shape : ∀ (c : Int × Int) (l1 l2 : List (Int × Int)),
      (((c :: (l1 ++ l2)) ++ [c]).drop 1).dropLast = l1 ++ l2 := by
    intro c l1 l2
    rw [List.cons_append, List.drop_one, List.tail_cons, List.dropLast_concat]
  simp only [create_linear_path]
  rw [shape, List.all_append, Bool.and_eq_true]
  exact ⟨hhoriz _ _ _ _, hvert _ _ _ _⟩

/-! ## C7 — sleep chunking -/

/-- Every chunk the interruptible-sleep loop emits is at most the chunk
size, hence at most `B` for any `B` above the chunk size. -/
theorem sleepChunksAux_all_le (B chunk : Nat) (stop : Nat → Bool) (hB : chunk ≤ B) :
    ∀ (fuel k rem : Nat),
      ((sleepChunksAux chunk stop fuel k rem).all (fun c => decide (c ≤ B))) = true := by
  intro fuel
  induction fuel with
  | zero => intro k rem; rfl
  | succ n ih =>
    intro k rem
    by_cases h0 : rem = 0
    · rw [sleepChunksAux, if_pos h0]; rfl
    · by_cases hs : stop k
      · rw [sleepChunksAux, if_neg h0, if_pos hs]; rfl
      · rw [sleepChunksAux, if_neg h0, if_neg hs, List.all_cons,
          ih (k + 1) (rem - min chunk rem)]
        simp [le_trans (Nat.min_le_left chunk rem) hB]

/-- The `i`-th chunk of the interruptible-sleep loop is emitted only after
the `i`-th reading of the stop signal came back `false`. -/
theorem sleepChunksAux_stop_not_set (chunk : Nat) (stop : Nat → Bool) :
    ∀ (fuel k rem i : Nat),
      i < (sleepChunksAux chunk stop fuel k rem).length → stop (k + i) = false := by
  intro fuel
  induction fuel with
  | zero => intro k rem i h; rw [sleepChunksAux] at h; simp at h
  | succ n ih =>
    intro k rem i h
    by_cases h0 : rem = 0
    · rw [sleepChunksAux, if_pos h0] at h; simp at h
    · by_cases hs : stop k
      · rw [sleepChunksAux, if_neg h0, if_pos hs] at h; simp at h
      · rw [sleepChunksAux, if_neg h0, if_neg hs] at h
        simp only [List.length_cons] at h
        cases i with
        | zero =>
          have hk : stop k = false := Bool.eq_false_iff.mpr hs
          rw [Nat.add_zero]
          exact hk
        | succ j =>
          have hj := ih (k + 1) (rem - min chunk rem) j (by omega)
          rw [show k + (j + 1) = (k + 1) + j by omega]
          exact hj

/-- C7 (amended): the two dedicated interruptible-sleep implementations
(`BotOperations.interruptible_sleep`, `DetectionManager._interruptible_sleep`)
sleep in chunks of at most one second (`MAX_SLEEP_CHUNK_MS`) and re-read the
stop signal before every chunk, so no chunk is slept after a stop reading
returns true; however (see the counterexample) several other sleeps of the
system are raw `time.sleep` calls and do not obey this discipline, so the
original claim quantifying over every sleep of the system is false. -/
theorem interruptible_sleep_chunk_bound : ∀ (stop : Nat → Bool) (total : Nat),
    ((interruptible_sleep stop total).all (fun c => decide (c ≤ MAX_SLEEP_CHUNK_MS)) = true) ∧
    ((List.range (interruptible_sleep stop total).length).all (fun i => !stop i) = true) ∧
    ((det_interruptible_sleep stop total).all (fun c => decide (c ≤ MAX_SLEEP_CHUNK_MS)) = true) ∧
    ((List.range (det_interruptible_sleep stop total).length).all (fun i => !stop i) = true) := by
  intro stop total
  have hrange : ∀ (chunk fuel k0 rem : Nat),
      ((List.range (sleepChunksAux chunk stop fuel k0 rem).length).all
        (fun i => !stop (k0 + i))) = true := by
    intro chunk fuel k0 rem
    rw [List.all_eq_true]
    intro i hi
    rw [List.mem_range] at hi
    have hzero := sleepChunksAux_stop_not_set chunk stop fuel k0 rem i hi
    simp [hzero]
  refine ⟨?_, ?_, ?_, ?_⟩
  · exact sleepChunksAux_all_le _ _ _ (by decide) _ _ _
  · simpa using hrange opsChunkMs total 0 total
  · exact sleepChunksAux_all_le _ _ _ (by decide) _ _ _
  · simpa using hrange detChunkMs total 0 total

/-- C7 counterexample: the loading-screen dismissal helper performs a single
uninterruptible `time.sleep(2)` — a 2000 ms chunk with no stop-signal
re-check — exceeding the one-second chunk bound the claim asserts for every
sleep of the system. -/
theorem loading_screen_sleep_unbounded_chunk :
    loading_screen_sleeps true false = [2000] ∧
    ((loading_screen_sleeps true false).all (fun c => decide (c ≤ MAX_SLEEP_CHUNK_MS)) = false) :=
  ⟨rfl, rfl⟩

/-! ## C8 — field detection area gate -/

/-- C8 counterexample: a largest contour whose area is exactly `min_area =
1000` lies inside the claim's closed interval `[1000, 0.5 * frameArea]`
(frame 100 × 100), yet `detect_field` returns the none-detection, because
the source gate `min_area < area < max_area` is strict. -/
theorem detect_field_rejects_min_area_boundary :
    detect_field [⟨1000, 1000, 500, 500⟩] 100 100 = (none, none) ∧
    ((1000 : ℚ) ≤ (⟨1000, 1000, 500, 500⟩ : CContour).area ∧
      (⟨1000, 1000, 500, 500⟩ : CContour).area ≤ ((100 * 100 : ℚ) * (1/2))) := by
  refine ⟨?_, by norm_num⟩
  norm_num [detect_field, largestContour]

/-- C8 (amended): `detect_field` accepts the largest contour exactly when
its area lies in the OPEN interval `(1000, 0.5 * frameArea)` — both interval
endpoints are rejected — returning its centroid and contour in that case,
and the none-detection whenever the area is outside the open interval or no
contour exists. -/
theorem detect_field_open_area_gate : ∀ (cs : List CContour) (sh sw : Nat) (lg : CContour),
    (detect_field [] sh sw = (none, none)) ∧
    (largestContour cs = some lg →
      ((1000 < lg.area ∧ lg.area < (sh * sw : ℚ) * (1/2)) →
        detect_field cs sh sw = (get_centroid lg, some lg)) ∧
      (¬(1000 < lg.area ∧ lg.area < (sh * sw : ℚ) * (1/2)) →
        detect_field cs sh sw = (none, none))) := by
  intro cs sh sw lg
  refine ⟨rfl, fun h => ⟨fun hgate => ?_, fun hn => ?_⟩⟩
  · simp only [detect_field, h]
    rw [if_pos hgate]
  · simp only [detect_field, h]
    rw [if_neg hn]

/-- C8 witness: a 100 × 100 frame with a single contour of area 2000 is
inside the open gate; `detect_field` accepts it and reports the moment
centroid `(⌊1000/2000⌋, ⌊1000/2000⌋) = (0, 0)`. -/
theorem detect_field_open_area_gate_witness :
    detect_field [⟨2000, 2000, 1000, 1000⟩] 100 100 =
      (some (0, 0), some ⟨2000, 2000, 1000, 1000⟩) := by
  have h := (detect_field_open_area_gate [⟨2000, 2000, 1000, 1000⟩] 100 100
    ⟨2000, 2000, 1000, 1000⟩).2 rfl
  have h2 := h.1 (by norm_num)
  rw [h2, get_centroid]
  norm_num [Rat.floor_def']

/-! ## C6 — template-matching fallback -/

/-- Whenever `find_template` reports a location, the reported confidence
clears the threshold (both the color attempt and the grayscale fallback gate
coordinates on `max_val >= threshold`). -/
theorem find_template_reported_conf (t : TemplEnv) (thr : ℚ) :
    (find_template t thr).x?.isSome = true → thr ≤ (find_template t thr).conf := by
  rw [find_template]
  by_cases hk : t.known = false
  · rw [if_pos hk]; intro h; simp at h
  · rw [if_neg hk]
    by_cases h1 : thr ≤ t.colorScore
    · simp only [matchAttempt, if_pos h1]
      intro _
      simpa using h1
    · by_cases h2 : thr ≤ t.grayScore
      · simp only [matchAttempt, if_neg h1, if_pos h2, Option.isSome_none]
        intro _
        simpa using h2
      · simp only [matchAttempt, if_neg h1, if_neg h2, Option.isSome_none]
        intro h
        simp at h

/-- C6 (amended): for a loaded template, `find_template` returns the color
result when the color score clears the threshold; otherwise it retries in
grayscale and returns the grayscale result when that clears the threshold;
when neither clears it, the returned null-location result carries the
grayscale attempt's best confidence — not the maximum of the color and
grayscale scores, which the original claim asserted (see the
counterexample).  No case raises: the function is total. -/
theorem find_template_grayscale_fallback : ∀ (t : TemplEnv) (thr : ℚ),
    t.known = true →
    (thr ≤ t.colorScore →
      find_template t thr =
        ⟨some (t.colorLoc.1 + t.w / 2), some (t.colorLoc.2 + t.h / 2), t.colorScore⟩) ∧
    (t.colorScore < thr → thr ≤ t.grayScore →
      find_template t thr =
        ⟨some (t.grayLoc.1 + t.w / 2), some (t.grayLoc.2 + t.h / 2), t.grayScore⟩) ∧
    (t.colorScore < thr → t.grayScore < thr →
      find_template t thr = ⟨none, none, t.grayScore⟩) := by
  intro t thr hk
  have hk2 : ¬(t.known = false) := by simp [hk]
  refine ⟨fun h1 => ?_, fun h1 h2 => ?_, fun h1 h2 => ?_⟩
  · rw [find_template, if_neg hk2]
    simp [matchAttempt, if_pos h1]
  · rw [find_template, if_neg hk2]
    simp [matchAttempt, if_neg (not_le.mpr h1), if_pos h2]
  · rw [find_template, if_neg hk2]
    simp [matchAttempt, if_neg (not_le.mpr h1), if_neg (not_le.mpr h2)]

/-- C6 counterexample: with threshold `7/10`, color score `1/2` and
grayscale score `3/10`, the doubly-failed call returns confidence `3/10`,
which is not the maximum `max (1/2) (3/10) = 1/2` of the two attempts as
the claim states. -/
theorem find_template_null_conf_not_max :
    find_template ⟨true, 1/2, (0, 0), 3/10, (0, 0), 4, 4⟩ (7/10) = ⟨none, none, 3/10⟩ ∧
    (find_template ⟨true, 1/2, (0, 0), 3/10, (0, 0), 4, 4⟩ (7/10)).conf ≠
      max (1/2 : ℚ) (3/10) := by
  have h : find_template ⟨true, 1/2, (0, 0), 3/10, (0, 0), 4, 4⟩ (7/10) =
      ⟨none, none, 3/10⟩ := by
    rw [find_template]
    norm_num [matchAttempt]
  refine ⟨h, ?_⟩
  rw [h]
  norm_num

/-- C6 witness: the three branches of `find_template_grayscale_fallback`
evaluated at concrete scores: both attempts below threshold, grayscale-only
above threshold, and color above threshold. -/
theorem find_template_grayscale_fallback_witness :
    find_template ⟨true, 1/2, (7, 7), 3/10, (0, 0), 4, 4⟩ (7/10) = ⟨none, none, 3/10⟩ ∧
    find_template ⟨true, 0, (0, 0), 8/10, (3, 5), 4, 6⟩ (7/10) = ⟨some 5, some 8, 8/10⟩ ∧
    find_template ⟨true, 9/10, (3, 5), 0, (0, 0), 4, 6⟩ (7/10) = ⟨some 5, some 8, 9/10⟩ := by
  refine ⟨?_, ?_, ?_⟩
  · exact (find_template_grayscale_fallback ⟨true, 1/2, (7, 7), 3/10, (0, 0), 4, 4⟩
      (7/10) rfl).2.2 (by norm_num) (by norm_num)
  · have h := (find_template_grayscale_fallback ⟨true, 0, (0, 0), 8/10, (3, 5), 4, 6⟩
      (7/10) rfl).2.1 (by norm_num) (by norm_num)
    simpa using h
  · have h := (find_template_grayscale_fallback ⟨true, 9/10, (3, 5), 0, (0, 0), 4, 6⟩
      (7/10) rfl).1 (by norm_num)
    simpa using h

/-! ## C5 — location classifier priority -/

/-- C5 (amended): `analyze_current_location` returns at most one entry, and
whenever the silo lookup reports a location with truthy (non-zero)
coordinates, that single entry is `silo_popup` regardless of all other
confidences.  The original claim's trigger — silo confidence at or above the
threshold, i.e. any reported location — is too weak: a reported location
with a zero coordinate fails the source's Python truthiness guard
`if silo_x and silo_y` (see the counterexample). -/
theorem analyze_current_location_priority : ∀ (sc : ScreenEnv),
    (analyze_current_location sc).length ≤ 1 ∧
    (truthy (find_template sc.siloT SILO_POPUP_THRESHOLD).x? = true →
     truthy (find_template sc.siloT SILO_POPUP_THRESHOLD).y? = true →
     analyze_current_location sc =
       [(Loc.silo_popup, (find_template sc.siloT SILO_POPUP_THRESHOLD).conf)]) := by
  intro sc
  constructor
  · rw [analyze_current_location]
    split_ifs <;> simp
  · intro hx hy
    have hsome : (find_template sc.siloT SILO_POPUP_THRESHOLD).x?.isSome = true := by
      cases hx2 : (find_template sc.siloT SILO_POPUP_THRESHOLD).x? with
      | none => rw [hx2] at hx; simp [truthy] at hx
      | some v => simp
    have hconf := find_template_reported_conf sc.siloT SILO_POPUP_THRESHOLD hsome
    rw [analyze_current_location]
    simp [hx, hy, hconf]

/-- C5 counterexample: a 1-pixel-wide silo template matched at column 0 with
confidence `9/10 ≥ 7/10`: `find_template` reports the location `(0, 2)`, yet
the classifier returns the empty mapping (not `silo_popup`), because the
zero x-coordinate is falsy in the source's `if silo_x and silo_y` guard. -/
theorem analyze_current_location_zero_x_silo :
    (find_template ⟨true, 9/10, (0, 0), 0, (0, 0), 1, 5⟩ SILO_POPUP_THRESHOLD).x? = some 0 ∧
    SILO_POPUP_THRESHOLD ≤
      (find_template ⟨true, 9/10, (0, 0), 0, (0, 0), 1, 5⟩ SILO_POPUP_THRESHOLD).conf ∧
    analyze_current_location
      ⟨⟨true, 0, (0, 0), 0, (0, 0), 4, 4⟩, ⟨true, 0, (0, 0), 0, (0, 0), 4, 4⟩,
       ⟨true, 0, (0, 0), 0, (0, 0), 4, 4⟩, ⟨true, 0, (0, 0), 0, (0, 0), 4, 4⟩,
       ⟨true, 9/10, (0, 0), 0, (0, 0), 1, 5⟩, ⟨true, 0, (0, 0), 0, (0, 0), 4, 4⟩⟩ = [] := by
  have hsilo : find_template ⟨true, 9/10, (0, 0), 0, (0, 0), 1, 5⟩ SILO_POPUP_THRESHOLD =
      ⟨some 0, some 2, 9/10⟩ := by
    rw [find_template]
    norm_num [matchAttempt, SILO_POPUP_THRESHOLD]
  refine ⟨by rw [hsilo], by rw [hsilo]; norm_num [SILO_POPUP_THRESHOLD], ?_⟩
  rw [analyze_current_location]
  norm_num [hsilo, truthy, find_template, matchAttempt,
    SILO_POPUP_THRESHOLD, PAPER_PAGE_THRESHOLD, OFFER_PAGE_PRIORITY_THRESHOLD,
    MARKET_PAGE_PRIORITY_THRESHOLD, MAIN_PAGE_THRESHOLD, CLOSE_BUTTON_THRESHOLD,
    OFFER_PAGE_THRESHOLD, MARKET_PAGE_THRESHOLD]

/-- C5 witness: a silo match at `(10, 10)` (truthy center `(12, 12)`) with
confidence `9/10` makes the classifier return exactly the `silo_popup`
singleton. -/
theorem analyze_current_location_priority_witness :
    analyze_current_location
      ⟨⟨true, 0, (0, 0), 0, (0, 0), 4, 4⟩, ⟨true, 0, (0, 0), 0, (0, 0), 4, 4⟩,
       ⟨true, 0, (0, 0), 0, (0, 0), 4, 4⟩, ⟨true, 0, (0, 0), 0, (0, 0), 4, 4⟩,
       ⟨true, 9/10, (10, 10), 0, (0, 0), 4, 4⟩, ⟨true, 0, (0, 0), 0, (0, 0), 4, 4⟩⟩ =
      [(Loc.silo_popup, 9/10)] := by
  have hsilo : find_template ⟨true, 9/10, (10, 10), 0, (0, 0), 4, 4⟩ SILO_POPUP_THRESHOLD =
      ⟨some 12, some 12, 9/10⟩ := by
    rw [find_template]
    norm_num [matchAttempt, SILO_POPUP_THRESHOLD]
  have h := (analyze_current_location_priority
      ⟨⟨true, 0, (0, 0), 0, (0, 0), 4, 4⟩, ⟨true, 0, (0, 0), 0, (0, 0), 4, 4⟩,
       ⟨true, 0, (0, 0), 0, (0, 0), 4, 4⟩, ⟨true, 0, (0, 0), 0, (0, 0), 4, 4⟩,
       ⟨true, 9/10, (10, 10), 0, (0, 0), 4, 4⟩, ⟨true, 0, (0, 0), 0, (0, 0), 4, 4⟩⟩).2
    (by show truthy (find_template ⟨true, 9/10, (10, 10), 0, (0, 0), 4, 4⟩
          SILO_POPUP_THRESHOLD).x? = true
        rw [hsilo]; rfl)
    (by show truthy (find_template ⟨true, 9/10, (10, 10), 0, (0, 0), 4, 4⟩
          SILO_POPUP_THRESHOLD).y? = true
        rw [hsilo]; rfl)
  rw [h]
  show [(Loc.silo_popup, (find_template ⟨true, 9/10, (10, 10), 0, (0, 0), 4, 4⟩
    SILO_POPUP_THRESHOLD).conf)] = _
  rw [hsilo]

/-! ## C10 — silo detection state effect -/

/-- C10: when `check_silo_full_template` detects the popup (truthy reported
coordinates, which `find_template` only yields at or above the threshold),
it returns `True` and sets `silo_is_full := true` while resetting
`wheat_sold_this_session := false` — even if wheat had been posted; when no
popup is detected it returns `False` and leaves every field of `BotState`
unchanged. -/
theorem check_silo_full_template_state : ∀ (t : TemplEnv) (s : BotState),
    ((truthy (find_template t SILO_POPUP_THRESHOLD).x? &&
      truthy (find_template t SILO_POPUP_THRESHOLD).y?) = true →
      check_silo_full_template t s =
        (true, { s with silo_is_full := true, wheat_sold_this_session := false })) ∧
    ((truthy (find_template t SILO_POPUP_THRESHOLD).x? &&
      truthy (find_template t SILO_POPUP_THRESHOLD).y?) = false →
      check_silo_full_template t s = (false, s)) := by
  intro t s
  constructor <;> intro h <;>
    simp [check_silo_full_template, siloDetectUpdate, h]

/-- C10 witness: a detection with `wheat_sold_this_session = true` in the
pre-state erases the posted-wheat fact; an unknown-template (no detection)
call leaves the state untouched. -/
theorem check_silo_full_template_state_witness :
    check_silo_full_template ⟨true, 9/10, (10, 10), 0, (0, 0), 4, 4⟩
        ⟨true, true, false, false, true⟩ =
      (true, ⟨true, true, false, true, false⟩) ∧
    check_silo_full_template ⟨false, 9/10, (10, 10), 0, (0, 0), 4, 4⟩
        ⟨true, true, false, false, true⟩ =
      (false, ⟨true, true, false, false, true⟩) := by
  have hsilo : find_template ⟨true, 9/10, (10, 10), 0, (0, 0), 4, 4⟩ SILO_POPUP_THRESHOLD =
      ⟨some 12, some 12, 9/10⟩ := by
    rw [find_template]
    norm_num [matchAttempt, SILO_POPUP_THRESHOLD]
  constructor
  · exact (check_silo_full_template_state ⟨true, 9/10, (10, 10), 0, (0, 0), 4, 4⟩
      ⟨true, true, false, false, true⟩).1 (by rw [hsilo]; rfl)
  · exact (check_silo_full_template_state ⟨false, 9/10, (10, 10), 0, (0, 0), 4, 4⟩
      ⟨true, true, false, false, true⟩).2 (by rfl)

/-! ## C9 — comprehensive planting bound -/

/-- The bounded planting loop performs at most `n` attempts. -/
theorem compLoop_count_le : ∀ (att : Nat → PlantAttemptEnv) (n i : Nat),
    (compLoop att i n).2 ≤ n := by
  intro att n
  induction n with
  | zero => intro i; simp [compLoop]
  | succ m ih =>
    intro i
    cases h : compAttemptStep (att i) with
    | some b => simp [compLoop, h]
    | none =>
      have hm := ih (i + 1)
      simp [compLoop, h]
      omega

/-- When no attempt ever early-returns, the loop reports no result. -/
theorem compLoop_all_none (att : Nat → PlantAttemptEnv)
    (hstep : ∀ i, compAttemptStep (att i) = none) :
    ∀ (n i : Nat), (compLoop att i n).1 = none := by
  intro n
  induction n with
  | zero => intro i; rfl
  | succ m ih =>
    intro i
    simp [compLoop, hstep i, ih (i + 1)]

/-- C9: `_comprehensive_field_planting` performs at most 5 attempts and
terminates; when planting is still needed at every check (the
coverage-never-improves scenario), it returns failure (`false`) rather than
looping; and it terminates early with success on the first attempt at which
planting is no longer needed. -/
theorem comprehensive_field_planting_bounded : ∀ (env : CompEnv),
    (comprehensive_field_planting env).2 ≤ 5 ∧
    ((∀ i, (env.attempts i).needPlanting = true) →
     (∀ i, (env.attempts i).needAfter = true) →
     env.finalNeedPlanting = true →
     (comprehensive_field_planting env).1 = false) ∧
    (((env.attempts 0).onMain || (env.attempts 0).returnOk) = true →
     (env.attempts 0).needPlanting = false →
     comprehensive_field_planting env = (true, 1)) := by
  intro env
  refine ⟨?_, ?_, ?_⟩
  · rw [comprehensive_field_planting]
    cases h : (compLoop env.attempts 0 5).1 with
    | some b => simpa [h] using compLoop_count_le env.attempts 5 0
    | none => simpa [h] using compLoop_count_le env.attempts 5 0
  · intro hNeed hAfter hFin
    have hstep : ∀ i, compAttemptStep (env.attempts i) = none := by
      intro i
      simp [compAttemptStep, hNeed i, hAfter i]
    rw [comprehensive_field_planting, compLoop_all_none env.attempts hstep 5 0]
    simp [hFin]
  · intro h1 h2
    have hcond : (!(env.attempts 0).onMain && !(env.attempts 0).returnOk) = false := by
      cases ha : (env.attempts 0).onMain <;> cases hb : (env.attempts 0).returnOk <;>
        simp_all
    have hstep0 : compAttemptStep (env.attempts 0) = some true := by
      simp [compAttemptStep, hcond, h2]
    rw [comprehensive_field_planting]
    simp [compLoop, hstep0]

/-- C9 witness: an environment in which planting is always needed and never
improves yields failure within the bound, and one in which planting is not
needed on the first attempt returns success after one attempt. -/
theorem comprehensive_field_planting_bounded_witness :
    (comprehensive_field_planting ⟨fun _ => ⟨true, true, true, true, true, true⟩, true⟩).1
      = false ∧
    (comprehensive_field_planting ⟨fun _ => ⟨true, true, true, true, true, true⟩, true⟩).2
      ≤ 5 ∧
    comprehensive_field_planting ⟨fun _ => ⟨true, true, false, true, true, true⟩, true⟩
      = (true, 1) := by
  refine ⟨?_, ?_, ?_⟩
  · exact (comprehensive_field_planting_bounded
      ⟨fun _ => ⟨true, true, true, true, true, true⟩, true⟩).2.1
      (fun i => rfl) (fun i => rfl) rfl
  · exact (comprehensive_field_planting_bounded
      ⟨fun _ => ⟨true, true, true, true, true, true⟩, true⟩).1
  · exact (comprehensive_field_planting_bounded
      ⟨fun _ => ⟨true, true, false, true, true, true⟩, true⟩).2.2 rfl rfl

/-! ## C1 — the silo flag is cleared only while wheat is marked sold -/

/-- Chain checks distribute over trace concatenation. -/
theorem siloClearChainOk_append : ∀ (l1 l2 : List BotState) (p : BotState),
    siloClearChainOk p (l1 ++ l2) =
      (siloClearChainOk p l1 && siloClearChainOk (l1.getLastD p) l2) := by
  intro l1
  induction l1 with
  | nil => intro l2 p; simp [siloClearChainOk]
  | cons a t ih =>
    intro l2 p
    simp only [List.cons_append, siloClearChainOk, List.append_eq, ih, List.getLastD_cons,
      Bool.and_assoc]

/-- Every transition inside a single `bot_loop` cycle clears `silo_is_full`
only from a state where `wheat_sold_this_session` holds, and the recorded
cycle-final state is the last state of the cycle trace. -/
theorem cycleSteps_chain_ok : ∀ (e : CycleEnv) (s : BotState),
    siloClearChainOk s (cycleSteps e s).1 = true ∧
    ((cycleSteps e s).1).getLastD s = (cycleSteps e s).2 := by
  intro e s
  obtain ⟨d, pm, mr, cp⟩ := e
  obtain ⟨r, da, pa, f, w⟩ := s
  revert d pm mr cp r da pa f w
  decide

/-- `stop_bot` never changes `silo_is_full`, so the stop transition is
always a safe step of the trace. -/
theorem stop_update_chain_ok : ∀ (s : BotState),
    siloClearChainOk s [stop_bot_update s] = true := by
  intro s
  obtain ⟨r, da, pa, f, w⟩ := s
  revert r da pa f w
  decide

/-- C1: in every run of the engine's loop — any number of cycles with any
detection/market outcomes, followed by the stop transition — every
transition that changes `silo_is_full` from `true` to `false` happens at a
step whose pre-state has `wheat_sold_this_session = true`; no transition
(popup closing, market-workflow failure, or stop) clears `silo_is_full`
while `wheat_sold_this_session` is false. -/
theorem bot_loop_silo_cleared_only_after_wheat_sold : ∀ (es : List CycleEnv) (s0 : BotState),
    siloClearChainOk s0 (bot_run_trace es s0) = true := by
  intro es
  induction es with
  | nil =>
    intro s0
    rw [bot_run_trace]
    exact stop_update_chain_ok s0
  | cons e t ih =>
    intro s0
    rw [bot_run_trace, siloClearChainOk_append, (cycleSteps_chain_ok e s0).2,
      (cycleSteps_chain_ok e s0).1, ih (cycleSteps e s0).2]
    rfl

/-! ## C2 — guaranteed pointer-release and path-unlock -/

theorem hasSetTrue_append : ∀ (l1 l2 : List Act),
    hasSetTrue (l1 ++ l2) = (hasSetTrue l1 || hasSetTrue l2) := by
  intro l1 l2
  simp [hasSetTrue]

/-- Scanning for the cleanup discipline skips a lock-free prefix. -/
theorem cleanupOk_append_of_not_set : ∀ (l1 l2 : List Act), hasSetTrue l1 = false →
    cleanupOk (l1 ++ l2) = cleanupOk l2 := by
  intro l1
  induction l1 with
  | nil => intro l2 _; rfl
  | cons a t ih =>
    intro l2 h
    rw [hasSetTrue, List.any_cons, Bool.or_eq_false_iff] at h
    obtain ⟨h1, h2⟩ := h
    have ht := ih l2 h2
    cases a with
    | setPath b =>
      cases b with
      | true => simp [isSetTrue] at h1
      | false => simpa [cleanupOk] using ht
    | mouseDown => simpa [cleanupOk] using ht
    | mouseUp => simpa [cleanupOk] using ht
    | click x y => simpa [cleanupOk] using ht
    | move x y => simpa [cleanupOk] using ht

/-- A trace that never takes the lock vacuously satisfies the discipline. -/
theorem cleanupOk_of_not_set : ∀ (l : List Act), hasSetTrue l = false →
    cleanupOk l = true := by
  intro l h
  have h2 := cleanupOk_append_of_not_set l [] h
  rw [List.append_nil] at h2
  rw [h2]
  rfl

/-- The pointer-up search skips a prefix of pure moves. -/
theorem upThenClear_moves_append : ∀ (l1 l2 : List Act), l1.all isMove = true →
    upThenClear (l1 ++ l2) = upThenClear l2 := by
  intro l1
  induction l1 with
  | nil => intro l2 _; rfl
  | cons a t ih =>
    intro l2 h
    rw [List.all_cons, Bool.and_eq_true] at h
    obtain ⟨h1, h2⟩ := h
    cases a with
    | move x y => simpa [upThenClear] using ih l2 h2
    | mouseDown => simp [isMove] at h1
    | mouseUp => simp [isMove] at h1
    | click x y => simp [isMove] at h1
    | setPath b => simp [isMove] at h1

theorem hasSetTrue_of_moves : ∀ (l : List Act), l.all isMove = true →
    hasSetTrue l = false := by
  intro l h
  rw [hasSetTrue, List.any_eq_false]
  intro a ha
  have hm := List.all_eq_true.mp h a ha
  cases a <;> simp_all [isMove, isSetTrue]

/-- The discipline holds for a lock-free prefix, a lock, and a suffix that
releases and clears in order. -/
theorem cleanupOk_set_then : ∀ (pre rest : List Act), hasSetTrue pre = false →
    upThenClear rest = true → cleanupOk rest = true →
    cleanupOk (pre ++ (Act.setPath true :: rest)) = true := by
  intro pre rest hpre h1 h2
  rw [cleanupOk_append_of_not_set pre _ hpre, cleanupOk, h1, h2]
  rfl

theorem safe_click_trace_not_set : ∀ (g i : Bool) (x y : Int),
    hasSetTrue (safe_click g i x y).2 = false := by
  intro g i x y
  cases g <;> simp [safe_click, hasSetTrue, isSetTrue]

theorem safe_move_trace_moves : ∀ (g : Bool) (x y : Int),
    ((safe_move g x y).2).all isMove = true := by
  intro g x y
  cases g <;> simp [safe_move, isMove]

/-- The per-point drag loop emits pointer moves only. -/
theorem dragLoop_trace_moves : ∀ (lg mg : Nat → Bool) (ex : Option Nat)
    (pts : List (Int × Int)) (i : Nat),
    ((dragLoop lg mg ex i pts).1).all isMove = true := by
  intro lg mg ex pts
  induction pts with
  | nil => intro i; rfl
  | cons p rest ih =>
    intro i
    by_cases he : ex = some i
    · simp [dragLoop, he]
    · by_cases hl : lg i
      · by_cases hm : mg i
        · simp [dragLoop, he, hl, hm, safe_move, isMove, ih (i + 1)]
        · simp [dragLoop, he, hl, hm, safe_move]
      · simp [dragLoop, he, hl]

theorem cleanupInvariant_unchanged : ∀ (s : BotState) (b : Bool) (tr : List Act),
    hasSetTrue tr = false → cleanupInvariant s (b, s, tr) = true := by
  intro s b tr h
  unfold cleanupInvariant
  simp [h, cleanupOk_of_not_set tr h]

theorem cleanupInvariant_cleared : ∀ (s s' : BotState) (b : Bool) (tr : List Act),
    s'.path_execution_active = false → cleanupOk tr = true →
    cleanupInvariant s (b, s', tr) = true := by
  intro s s' b tr hflag hok
  unfold cleanupInvariant
  simp [hflag, hok]

/-- The `except` handler always releases the pointer and clears the lock. -/
theorem exceptExit_cleanup : ∀ (s0 s : BotState) (tr : List Act),
    cleanupOk (tr ++ [Act.mouseUp, Act.setPath false]) = true →
    cleanupInvariant s0 (exceptExit s tr) = true := by
  intro s0 s tr hok
  unfold exceptExit
  exact cleanupInvariant_cleared s0 _ false _ rfl hok

/-- The try-block tail always releases the pointer and clears the lock,
whether or not an exception diverts it to the handler. -/
theorem finishDrag_cleanup : ∀ (s0 s : BotState) (ef fg : Bool) (cx cy : Int)
    (tr : List Act),
    cleanupOk (tr ++ [Act.mouseUp, Act.setPath false]) = true →
    cleanupOk ((tr ++ (safe_move fg cx cy).2) ++ [Act.mouseUp, Act.setPath false]) = true →
    cleanupInvariant s0 (finishDrag ef fg cx cy s tr) = true := by
  intro s0 s ef fg cx cy tr hok1 hok2
  unfold finishDrag
  cases ef with
  | true =>
    simp only [if_true]
    exact exceptExit_cleanup s0 s tr hok1
  | false =>
    simp only [Bool.false_eq_true, if_false]
    exact cleanupInvariant_cleared s0 _ true _ rfl hok2

theorem cleanup_tail_of_not_set : ∀ (tr : List Act), hasSetTrue tr = false →
    cleanupOk (tr ++ [Act.mouseUp, Act.setPath false]) = true := by
  intro tr h
  rw [cleanupOk_append_of_not_set tr _ h]
  rfl

/-- Every exit of the `try` block of `plant_wheat` obeys the invariant. -/
theorem plantTry_cleanup : ∀ (env : PlantEnv) (cx cy : Int)
    (ct : Option (List (Int × Int))) (s : BotState) (tr : List Act),
    hasSetTrue tr = false →
    cleanupInvariant s (plantTry env cx cy ct s tr) = true := by
  intro env cx cy ct s tr htr
  unfold plantTry
  cases ct with
  | none =>
    refine finishDrag_cleanup s s env.excFinal env.finalMoveGuard cx cy tr
      (cleanup_tail_of_not_set tr htr) (cleanup_tail_of_not_set _ ?_)
    rw [hasSetTrue_append, htr, hasSetTrue_of_moves _ (safe_move_trace_moves _ _ _)]
    rfl
  | some c0 =>
    cases hpre : env.excPre with
    | true =>
      simp only [if_true]
      exact exceptExit_cleanup s s tr (cleanup_tail_of_not_set tr htr)
    | false =>
      simp only [Bool.false_eq_true, if_false]
      set path := create_linear_path env.inside cx cy
        (some (if env.tryScreenSome then env.updatedContour.getD c0 else c0)) PathType.plant
        with hpath
      set dl := dragLoop env.loopGuard env.moveGuard env.excAt 0 path with hdl
      have hdlmoves : (dl.1).all isMove = true := dragLoop_trace_moves _ _ _ _ _
      have hlock1 : cleanupOk (((tr ++ [Act.setPath true]) ++ dl.1) ++
          [Act.mouseUp, Act.setPath false]) = true := by
        rw [List.append_assoc, List.append_assoc, List.singleton_append]
        refine cleanupOk_set_then tr _ htr ?_ ?_
        · rw [upThenClear_moves_append dl.1 _ hdlmoves]
          rfl
        · rw [cleanupOk_append_of_not_set dl.1 _ (hasSetTrue_of_moves _ hdlmoves)]
          rfl
      have hlock2 : cleanupOk ((((tr ++ [Act.setPath true]) ++ dl.1) ++
          (safe_move env.finalMoveGuard cx cy).2) ++ [Act.mouseUp, Act.setPath false])
          = true := by
        rw [List.append_assoc, List.append_assoc, List.append_assoc, List.singleton_append]
        refine cleanupOk_set_then tr _ htr ?_ ?_
        · rw [upThenClear_moves_append dl.1 _ hdlmoves,
            upThenClear_moves_append _ _ (safe_move_trace_moves _ _ _)]
          rfl
        · rw [cleanupOk_append_of_not_set dl.1 _ (hasSetTrue_of_moves _ hdlmoves),
            cleanupOk_append_of_not_set _ _
              (hasSetTrue_of_moves _ (safe_move_trace_moves _ _ _))]
          rfl
      cases hexc : dl.2 with
      | true =>
        simp only [if_true]
        exact exceptExit_cleanup s _ _ hlock1
      | false =>
        simp only [Bool.false_eq_true, if_false]
        exact finishDrag_cleanup s _ env.excFinal env.finalMoveGuard cx cy _ hlock1 hlock2

/-- Every exit of the `try` block of `harvest_wheat` obeys the invariant. -/
theorem harvestTry_cleanup : ∀ (env : HarvestEnv) (cx cy : Int)
    (ct : Option (List (Int × Int))) (s : BotState) (tr : List Act),
    hasSetTrue tr = false →
    cleanupInvariant s (harvestTry env cx cy ct s tr) = true := by
  intro env cx cy ct s tr htr
  unfold harvestTry
  cases ct with
  | none =>
    refine finishDrag_cleanup s s env.excFinal env.finalMoveGuard cx cy tr
      (cleanup_tail_of_not_set tr htr) (cleanup_tail_of_not_set _ ?_)
    rw [hasSetTrue_append, htr, hasSetTrue_of_moves _ (safe_move_trace_moves _ _ _)]
    rfl
  | some c0 =>
    cases hpre : env.excPre with
    | true =>
      simp only [if_true]
      exact exceptExit_cleanup s s tr (cleanup_tail_of_not_set tr htr)
    | false =>
      simp only [Bool.false_eq_true, if_false]
      set cc := if env.tryScreenSome then
          (env.updatedContour.getD c0, env.updatedCenter.getD (cx, cy))
        else (c0, (cx, cy)) with hcc
      set path := create_linear_path env.inside cc.2.1 cc.2.2 (some cc.1) PathType.harvest
        with hpath
      set dl := dragLoop env.loopGuard env.moveGuard env.excAt 0 path with hdl
      have hdlmoves : (dl.1).all isMove = true := dragLoop_trace_moves _ _ _ _ _
      have hlock1 : cleanupOk (((tr ++ [Act.setPath true]) ++ dl.1) ++
          [Act.mouseUp, Act.setPath false]) = true := by
        rw [List.append_assoc, List.append_assoc, List.singleton_append]
        refine cleanupOk_set_then tr _ htr ?_ ?_
        · rw [upThenClear_moves_append dl.1 _ hdlmoves]
          rfl
        · rw [cleanupOk_append_of_not_set dl.1 _ (hasSetTrue_of_moves _ hdlmoves)]
          rfl
      have hlock2 : cleanupOk ((((tr ++ [Act.setPath true]) ++ dl.1) ++
          (safe_move env.finalMoveGuard cc.2.1 cc.2.2).2) ++ [Act.mouseUp, Act.setPath false])
          = true := by
        rw [List.append_assoc, List.append_assoc, List.append_assoc, List.singleton_append]
        refine cleanupOk_set_then tr _ htr ?_ ?_
        · rw [upThenClear_moves_append dl.1 _ hdlmoves,
            upThenClear_moves_append _ _ (safe_move_trace_moves _ _ _)]
          rfl
        · rw [cleanupOk_append_of_not_set dl.1 _ (hasSetTrue_of_moves _ hdlmoves),
            cleanupOk_append_of_not_set _ _
              (hasSetTrue_of_moves _ (safe_move_trace_moves _ _ _))]
          rfl
      cases hexc : dl.2 with
      | true =>
        simp only [if_true]
        exact exceptExit_cleanup s _ _ hlock1
      | false =>
        simp only [Bool.false_eq_true, if_false]
        exact finishDrag_cleanup s _ env.excFinal env.finalMoveGuard cc.2.1 cc.2.2 _
          hlock1 hlock2

/-- All exit paths of `plant_wheat` obey the cleanup invariant. -/
theorem plant_wheat_cleanup : ∀ (env : PlantEnv) (cx cy : Int)
    (ct : Option (List (Int × Int))) (s : BotState),
    cleanupInvariant s (plant_wheat env cx cy ct s) = true := by
  intro env cx cy ct s
  unfold plant_wheat
  cases hrun : env.runningAtEntry with
  | false =>
    simp only [Bool.not_false, if_true]
    exact cleanupInvariant_unchanged s false [] rfl
  | true =>
    simp only [Bool.not_true, Bool.false_eq_true, if_false]
    cases hg1 : env.clickCenterGuard with
    | false =>
      simp only [safe_click, Bool.not_false, if_true]
      exact cleanupInvariant_unchanged s false [] rfl
    | true =>
      cases hi1 : env.clickCenterInterrupted with
      | true =>
        simp only [safe_click, Bool.not_false, Bool.not_true, if_true, Bool.false_eq_true,
          if_false]
        exact cleanupInvariant_unchanged s false [Act.click cx cy] rfl
      | false =>
        simp only [safe_click, Bool.not_false, Bool.not_true, Bool.false_eq_true, if_false,
          if_true]
        cases hsd : env.stopCenterDelay with
        | true =>
          simp only [if_true]
          exact cleanupInvariant_unchanged s false [Act.click cx cy] rfl
        | false =>
          simp only [Bool.false_eq_true, if_false]
          cases hg2 : env.clickWheatGuard with
          | false =>
            simp only [safe_click, Bool.not_false, if_true, List.append_nil]
            exact cleanupInvariant_unchanged s false [Act.click cx cy] rfl
          | true =>
            cases hi2 : env.clickWheatInterrupted with
            | true =>
              simp only [safe_click, Bool.not_true, Bool.not_false, Bool.false_eq_true,
                if_false, if_true]
              refine cleanupInvariant_unchanged s false _ ?_
              rfl
            | false =>
              simp only [safe_click, Bool.not_true, Bool.not_false, Bool.false_eq_true,
                if_false, if_true]
              cases hg3 : env.initialMoveGuard with
              | false =>
                simp only [safe_move, Bool.not_false, if_true, List.append_nil]
                refine cleanupInvariant_unchanged s false _ ?_
                rfl
              | true =>
                simp only [safe_move, Bool.not_true, Bool.false_eq_true, if_false, if_true]
                refine plantTry_cleanup env _ _ ct s _ ?_
                rfl

/-- All exit paths of `harvest_wheat` obey the cleanup invariant. -/
theorem harvest_wheat_cleanup : ∀ (env : HarvestEnv) (cx cy : Int)
    (ct : Option (List (Int × Int))) (s : BotState),
    cleanupInvariant s (harvest_wheat env cx cy ct s) = true := by
  intro env cx cy ct s
  unfold harvest_wheat
  cases hrun : env.runningAtEntry with
  | false =>
    simp only [Bool.not_false, if_true]
    exact cleanupInvariant_unchanged s false [] rfl
  | true =>
    simp only [Bool.not_true, Bool.false_eq_true, if_false]
    cases hg1 : env.clickCenterGuard with
    | false =>
      simp only [safe_click, Bool.not_false, if_true]
      exact cleanupInvariant_unchanged s false [] rfl
    | true =>
      cases hi1 : env.clickCenterInterrupted with
      | true =>
        simp only [safe_click, Bool.not_false, Bool.not_true, if_true, Bool.false_eq_true,
          if_false]
        exact cleanupInvariant_unchanged s false [Act.click cx cy] rfl
      | false =>
        simp only [safe_click, Bool.not_false, Bool.not_true, Bool.false_eq_true, if_false,
          if_true]
        cases hg2 : env.toolMoveGuard with
        | false =>
          simp only [safe_move, Bool.not_false, if_true, List.append_nil]
          exact cleanupInvariant_unchanged s false [Act.click cx cy] rfl
        | true =>
          simp only [safe_move, Bool.not_true, Bool.false_eq_true, if_false, if_true]
          cases hg3 : env.initialMoveGuard with
          | false =>
            simp only [safe_move, Bool.not_false, if_true, List.append_nil]
            refine cleanupInvariant_unchanged s false _ ?_
            rfl
          | true =>
            simp only [safe_move, Bool.not_true, Bool.false_eq_true, if_false, if_true]
            refine harvestTry_cleanup env _ _ ct s _ ?_
            rfl

/-- C2: for every environment (guard outcomes, stop signals, detection
snapshots, exception points) and inputs, both `plant_wheat` and
`harvest_wheat` satisfy the cleanup invariant: after `path_execution_active`
is set, every exit path — normal completion, early break, or exception —
performs the pointer-up and then resets the flag to false, so both
functions return with `path_execution_active` false whenever they set it
(and whenever it was false at entry). -/
theorem plant_harvest_pointer_cleanup : ∀ (pe : PlantEnv) (he : HarvestEnv)
    (pcx pcy hcx hcy : Int) (pct hct : Option (List (Int × Int))) (ps hs : BotState),
    cleanupInvariant ps (plant_wheat pe pcx pcy pct ps) = true ∧
    cleanupInvariant hs (harvest_wheat he hcx hcy hct hs) = true := by
  intro pe he pcx pcy hcx hcy pct hct ps hs
  exact ⟨plant_wheat_cleanup pe pcx pcy pct ps, harvest_wheat_cleanup he hcx hcy hct hs⟩
